import Mathlib

/-!
Verification development for the `openrouter_ai_chat` command-line client
(`src/openrouter_ai_chat.py`).  The definitions below are a shallow
embedding of the program: the server-sent-event stream loop of
`_send_message_to_ai`, the HTTP status dispatch, the transcript
commit/rollback logic of `interactive_chat`, the one-shot piped path
`handle_piped_input`, and the `__main__` mode dispatch.  The HTTP
response (status code, body lines) is treated as an exogenous input.
-/

/-- JSON values as produced by Python's `json.loads`: objects are ordered
key/value lists (lookup takes the last occurrence, matching dict insertion
semantics), numbers are modelled as integers (the protocol payloads the
program inspects carry no fractional numbers). -/
inductive Json where
  | null
  | bool (b : Bool)
  | num (n : Int)
  | str (s : String)
  | arr (xs : List Json)
  | obj (kvs : List (String × Json))

/-- Lookup of a key in a parsed object: the LAST binding wins, as in a
Python dict built by `json.loads` when keys repeat. -/
def objGet (kvs : List (String × Json)) (k : String) : Option Json :=
  match kvs with
  | [] => none
  | (k0, v0) :: rest =>
    match objGet rest k with
    | some v => some v
    | none => if k0 = k then some v0 else none

/-- JSON whitespace accepted between tokens. -/
def jsonWs (c : Char) : Bool :=
  c = ' ' || c = '\t' || c = '\n' || c = '\r'

/-- Opening curly brace character. -/
def obrace : Char := Char.ofNat 123

/-- Closing curly brace character. -/
def cbrace : Char := Char.ofNat 125

/-- Double-quote character. -/
def dquote : Char := Char.ofNat 34

/-- Backslash character. -/
def bslash : Char := Char.ofNat 92

/-- Decode one character following a backslash inside a JSON string. -/
def unescape (c : Char) : Option Char :=
  if c = dquote then some dquote
  else if c = bslash then some bslash
  else if c = '/' then some '/'
  else if c = 'n' then some '\n'
  else if c = 't' then some '\t'
  else if c = 'r' then some '\r'
  else if c = 'b' then some (Char.ofNat 8)
  else if c = 'f' then some (Char.ofNat 12)
  else none

/-- Parse the body of a JSON string after the opening quote, returning the
decoded characters and the remaining input after the closing quote. -/
def parseStrBody (l : List Char) : Option (List Char × List Char) :=
  match l with
  | [] => none
  | c :: rest =>
    if c = dquote then some ([], rest)
    else if c = bslash then
      match rest with
      | [] => none
      | e :: rest2 =>
        match unescape e with
        | some ch =>
          match parseStrBody rest2 with
          | some (cs, r) => some (ch :: cs, r)
          | none => none
        | none => none
    else
      match parseStrBody rest with
      | some (cs, r) => some (c :: cs, r)
      | none => none

/-- Numeric value of a run of ASCII digits. -/
def natOfDigits (ds : List Char) : Nat :=
  ds.foldl (fun a c => a * 10 + (c.toNat - 48)) 0

/-- Parse an integer literal (optional leading minus, then digits). -/
def parseNum (l : List Char) : Option (Json × List Char) :=
  match l with
  | '-' :: rest =>
    let ds := rest.takeWhile Char.isDigit
    if ds.isEmpty then none
    else some (.num (-(natOfDigits ds : Int)), rest.dropWhile Char.isDigit)
  | _ =>
    let ds := l.takeWhile Char.isDigit
    if ds.isEmpty then none
    else some (.num (natOfDigits ds : Int), l.dropWhile Char.isDigit)

mutual

/-- Fuel-indexed parser for one JSON value; returns the value and the
unconsumed remainder of the input. -/
def parseVal (fuel : Nat) (l : List Char) : Option (Json × List Char) :=
  match fuel with
  | 0 => none
  | f + 1 =>
    let l1 := l.dropWhile jsonWs
    match l1 with
    | [] => none
    | c :: rest =>
      if c = dquote then
        match parseStrBody rest with
        | some (cs, r) => some (.str (String.mk cs), r)
        | none => none
      else if c = '[' then parseArrRest f rest
      else if c = obrace then parseObjRest f rest
      else if c = 't' then
        if ("rue".toList).isPrefixOf rest then some (.bool true, rest.drop 3) else none
      else if c = 'f' then
        if ("alse".toList).isPrefixOf rest then some (.bool false, rest.drop 4) else none
      else if c = 'n' then
        if ("ull".toList).isPrefixOf rest then some (.null, rest.drop 3) else none
      else if c = '-' || c.isDigit then parseNum l1
      else none

/-- Parse the remainder of an array after the opening bracket. -/
def parseArrRest (fuel : Nat) (l : List Char) : Option (Json × List Char) :=
  match fuel with
  | 0 => none
  | f + 1 =>
    let l1 := l.dropWhile jsonWs
    match l1 with
    | ']' :: r => some (.arr [], r)
    | _ =>
      match parseVal f l1 with
      | none => none
      | some (v, r2) =>
        match parseArrMore f r2 with
        | some (vs, r3) => some (.arr (v :: vs), r3)
        | none => none

/-- Parse `, value` repetitions of an array until the closing bracket. -/
def parseArrMore (fuel : Nat) (l : List Char) : Option (List Json × List Char) :=
  match fuel with
  | 0 => none
  | f + 1 =>
    let l1 := l.dropWhile jsonWs
    match l1 with
    | ']' :: r => some ([], r)
    | ',' :: r =>
      match parseVal f r with
      | none => none
      | some (v, r2) =>
        match parseArrMore f r2 with
        | some (vs, r3) => some (v :: vs, r3)
        | none => none
    | _ => none

/-- Parse the remainder of an object after the opening brace. -/
def parseObjRest (fuel : Nat) (l : List Char) : Option (Json × List Char) :=
  match fuel with
  | 0 => none
  | f + 1 =>
    let l1 := l.dropWhile jsonWs
    match l1 with
    | c :: r =>
      if c = cbrace then some (.obj [], r)
      else if c = dquote then
        match parseStrBody r with
        | none => none
        | some (kcs, r1) =>
          match (r1.dropWhile jsonWs) with
          | ':' :: r2 =>
            match parseVal f r2 with
            | none => none
            | some (v, r3) =>
              match parseObjMore f r3 with
              | some (kvs, r4) => some (.obj ((String.mk kcs, v) :: kvs), r4)
              | none => none
          | _ => none
      else none
    | [] => none

/-- Parse `, "key": value` repetitions of an object until the closing brace. -/
def parseObjMore (fuel : Nat) (l : List Char) : Option (List (String × Json) × List Char) :=
  match fuel with
  | 0 => none
  | f + 1 =>
    let l1 := l.dropWhile jsonWs
    match l1 with
    | c :: r =>
      if c = cbrace then some ([], r)
      else if c = ',' then
        match (r.dropWhile jsonWs) with
        | c2 :: r1 =>
          if c2 = dquote then
            match parseStrBody r1 with
            | none => none
            | some (kcs, r2) =>
              match (r2.dropWhile jsonWs) with
              | ':' :: r3 =>
                match parseVal f r3 with
                | none => none
                | some (v, r4) =>
                  match parseObjMore f r4 with
                  | some (kvs, r5) => some ((String.mk kcs, v) :: kvs, r5)
                  | none => none
              | _ => none
          else none
        | [] => none
      else none
    | [] => none

end

/-- Model of Python's `json.loads`: parse a complete JSON document; fail
(raising `JSONDecodeError` in the source) when nothing parses or trailing
non-whitespace remains. -/
def parseJson (l : List Char) : Option Json :=
  match parseVal (4 * (l.length + 1)) l with
  | some (j, rest) => if (rest.dropWhile jsonWs).isEmpty then some j else none
  | none => none

/-- Does the character list `needle` occur as a contiguous run inside
`hay`?  Models Python's `in` on strings. -/
def subOccurs (needle hay : List Char) : Bool :=
  needle.isPrefixOf hay ||
    (match hay with
     | [] => false
     | _ :: t => subOccurs needle t)

/-- Python's `k in x` for a `json.loads` value `x`: key membership for a
dict, element equality for a list, substring test for a string; `none`
models the `TypeError` raised on any other value. -/
def pyContains (j : Json) (k : String) : Option Bool :=
  match j with
  | .obj kvs => some (kvs.any (fun p => p.1 == k))
  | .arr xs =>
    some (xs.any (fun x => match x with | .str s => s == k | _ => false))
  | .str s => some (subOccurs k.toList s.toList)
  | _ => none

/-- Python's subscript `x[k]` with a string key: dict lookup (`none` also
models the `KeyError` on a missing key, and the `TypeError` on non-dicts:
both escape to the enclosing generic handler in the source). -/
def pyGetKey (j : Json) (k : String) : Option Json :=
  match j with
  | .obj kvs => objGet kvs k
  | _ => none

/-- Python's `len(x)`: length of a list or string, number of distinct keys
of a dict; `none` models the `TypeError` on other values. -/
def pyLen (j : Json) : Option Nat :=
  match j with
  | .arr xs => some xs.length
  | .str s => some s.length
  | .obj kvs => some ((kvs.map Prod.fst).eraseDups.length)
  | _ => none

/-- Python's `x[0]`: first element of a list, first character of a string
(as a one-character string); `none` models the `IndexError`/`KeyError`/
`TypeError` on anything else. -/
def pyIndex0 (j : Json) : Option Json :=
  match j with
  | .arr (x :: _) => some x
  | .arr [] => none
  | .str s =>
    match s.toList with
    | c :: _ => some (.str (String.mk [c]))
    | [] => none
  | _ => none

/-- Python's `x.get(k, {})` (used as `chunk.get("error", {})`): dict
lookup with an empty-dict default; `none` models the `AttributeError` on
non-dicts. -/
def pyDictGet (j : Json) (k : String) : Option Json :=
  match j with
  | .obj kvs => some ((objGet kvs k).getD (.obj []))
  | _ => none

/-- Python's `x.get(k, default)` exposing presence of the key: `some v?`
for a dict, `none` for the `AttributeError` on non-dicts. -/
def pyDictGetOpt (j : Json) (k : String) : Option (Option Json) :=
  match j with
  | .obj kvs => some (objGet kvs k)
  | _ => none

mutual

/-- Model of Python's `str()` rendering of a `json.loads` value, used for
interpolating a non-string `message` into a diagnostic line. -/
def pyStr (j : Json) : String :=
  match j with
  | .str s => s
  | .null => "None"
  | .bool true => "True"
  | .bool false => "False"
  | .num n => toString n
  | .arr xs => "[" ++ pyReprList xs ++ "]"
  | .obj kvs => String.mk [obrace] ++ pyReprPairs kvs ++ String.mk [cbrace]

/-- Python `repr()` of a value (element rendering inside containers). -/
def pyRepr (j : Json) : String :=
  match j with
  | .str s => String.mk [Char.ofNat 39] ++ s ++ String.mk [Char.ofNat 39]
  | .null => "None"
  | .bool true => "True"
  | .bool false => "False"
  | .num n => toString n
  | .arr xs => "[" ++ pyReprList xs ++ "]"
  | .obj kvs => String.mk [obrace] ++ pyReprPairs kvs ++ String.mk [cbrace]

/-- Comma-joined `repr` of list elements. -/
def pyReprList (xs : List Json) : String :=
  match xs with
  | [] => ""
  | [x] => pyRepr x
  | x :: rest => pyRepr x ++ ", " ++ pyReprList rest

/-- Comma-joined `repr` of dict entries. -/
def pyReprPairs (kvs : List (String × Json)) : String :=
  match kvs with
  | [] => ""
  | [(k, v)] => pyRepr (.str k) ++ ": " ++ pyRepr v
  | (k, v) :: rest => pyRepr (.str k) ++ ": " ++ pyRepr v ++ ", " ++ pyReprPairs rest

end

/-- Result of processing one parsed chunk inside the stream loop of
`_send_message_to_ai` (source lines 96-116). -/
inductive ChunkRes where
  | cont (acc : String)
  | srvErr (msg : String)
  | exc
deriving DecidableEq

/-- The Python condition `"choices" in chunk and len(chunk["choices"]) > 0`
with short-circuit evaluation; `none` models an escaping exception. -/
def choicesGuard (chunk : Json) : Option Bool := do
  let b ← pyContains chunk "choices"
  if b then
    let cv ← pyGetKey chunk "choices"
    let n ← pyLen cv
    pure (decide (0 < n))
  else
    pure false

/-- The no-op branch `elif "finish_reason" in choice and
choice["finish_reason"] is not None: pass` (source lines 106-110): the
loop continues with the accumulator unchanged unless subscripting raises. -/
def finishBranch (choice : Json) (acc : String) : ChunkRes :=
  match pyContains choice "finish_reason" with
  | none => .exc
  | some true =>
    match pyGetKey choice "finish_reason" with
    | none => .exc
    | some _ => .cont acc
  | some false => .cont acc

/-- The content branch of the loop body (source lines 98-110): extract
`choice["delta"]["content"]` and append it to the accumulator; a
non-string content makes `+=` raise (escaping exception). -/
def deltaBranch (choice : Json) (acc : String) : ChunkRes :=
  match pyContains choice "delta" with
  | none => .exc
  | some true =>
    match pyGetKey choice "delta" with
    | none => .exc
    | some dv =>
      match pyContains dv "content" with
      | none => .exc
      | some true =>
        match pyGetKey dv "content" with
        | none => .exc
        | some (.str s) => .cont (acc ++ s)
        | some _ => .exc
      | some false => finishBranch choice acc
  | some false => finishBranch choice acc

/-- The error branch `elif "error" in chunk:` (source lines 111-116):
surface `chunk.get("error", {}).get("message", "Unknown error")` and abort
the stream by returning `None`. -/
def errBranch (chunk : Json) (acc : String) : ChunkRes :=
  match pyContains chunk "error" with
  | none => .exc
  | some true =>
    match pyDictGet chunk "error" with
    | none => .exc
    | some ev =>
      match pyDictGetOpt ev "message" with
      | none => .exc
      | some mv =>
        .srvErr (match mv with
          | some (.str s) => s
          | some v => pyStr v
          | none => "Unknown error")
  | some false => .cont acc

/-- One parsed chunk of the stream loop (source lines 96-116). -/
def stepChunk (chunk : Json) (acc : String) : ChunkRes :=
  match choicesGuard chunk with
  | none => .exc
  | some true =>
    match pyGetKey chunk "choices" with
    | none => .exc
    | some cv =>
      match pyIndex0 cv with
      | none => .exc
      | some choice => deltaBranch choice acc
  | some false => errBranch chunk acc

/-- Outcome of the whole 200-status stream loop (source lines 78-122):
either the loop ran to completion (list exhausted or `[DONE]` break) and
the accumulator is returned, or the error branch returned `None` after
writing the server message, or an exception escaped to the generic
handler (which also returns `None`). -/
inductive StreamResult where
  | finished (acc : String)
  | serverErr (msg : String)
  | exceptionAbort
deriving DecidableEq

/-- The literal `data: ` frame mark (one trailing space). -/
def dataMark : List Char := "data: ".toList

/-- The `[DONE]` sentinel, compared after stripping. -/
def doneChars : List Char := "[DONE]".toList

/-- Characters removed by Python's `str.strip()` for ASCII input. -/
def pySpace (c : Char) : Bool :=
  c = ' ' || c = '\t' || c = '\n' || c = '\r' || c = Char.ofNat 11 || c = Char.ofNat 12

/-- Python's `str.strip()`: drop whitespace from both ends. -/
def pyStrip (l : List Char) : List Char :=
  (((l.dropWhile pySpace).reverse.dropWhile pySpace)).reverse

/-- The `for line in response.iter_lines()` loop (source lines 83-122):
skip empty lines, recognise the `data: ` mark, strip the payload, break on
`[DONE]`, skip unparsable payloads, and dispatch parsed chunks. -/
def iterLinesLoop (lines : List String) (acc : String) : StreamResult :=
  match lines with
  | [] => .finished acc
  | l :: rest =>
    let cs := l.toList
    if cs.isEmpty then iterLinesLoop rest acc
    else if dataMark.isPrefixOf cs then
      let payload := pyStrip (cs.drop 6)
      if payload = doneChars then .finished acc
      else
        match parseJson payload with
        | none => iterLinesLoop rest acc
        | some chunk =>
          match stepChunk chunk acc with
          | .cont acc2 => iterLinesLoop rest acc2
          | .srvErr m => .serverErr m
          | .exc => .exceptionAbort
    else iterLinesLoop rest acc

/-- What `_send_message_to_ai` returns once the stream loop finishes:
the accumulated reply, or `None` for the error/exception exits. -/
def sendReturn : StreamResult → Option String
  | .finished acc => some acc
  | .serverErr _ => none
  | .exceptionAbort => none

/-- An HTTP response as seen by `_send_message_to_ai`: status code, the
line iterator of the streamed body, and the raw body text (used by
`response.json()` on the 400 branch).  Exogenous input of a turn. -/
structure HttpResponse where
  status : Nat
  lines : List String
  body : String
deriving DecidableEq

/-- `_send_message_to_ai` (source lines 58-151) restricted to the case
where a response arrived: stream-assemble on 200, return `None` for every
other status (source line 151). -/
def send_message_to_ai (r : HttpResponse) : Option String :=
  if r.status = 200 then sendReturn (iterLinesLoop r.lines "")
  else none

/-- Failure kinds of the spec's `TurnOutcome` taxonomy. -/
inductive FailureKind where
  | unauthorized
  | badRequest
  | rateLimited
  | serverError
  | timeout
  | connectionError
  | malformedResponse
  | other
deriving DecidableEq

/-- Outcome of one turn in the spec's taxonomy. -/
inductive TurnOutcome where
  | success (text : String)
  | failure (kind : FailureKind)
deriving DecidableEq

/-- The non-200 status dispatch of `_send_message_to_ai` (source lines
125-150), one kind per `elif` branch. -/
def classifyFailure (status : Nat) : FailureKind :=
  if status = 401 then .unauthorized
  else if status = 400 then .badRequest
  else if status = 429 then .rateLimited
  else if status = 500 ∨ status = 502 ∨ status = 503 ∨ status = 504 then .serverError
  else .other

/-- The detail string written by the 400 branch (source lines 129-138):
parse the body, extract `message` with a default, and tolerate a parse
failure; `none` models the `AttributeError` escaping when the parsed body
is not a dict. -/
def badRequestNote (body : String) : Option String :=
  match parseJson body.toList with
  | none => some "Unable to parse error details."
  | some (.obj kvs) =>
    some (match objGet kvs "message" with
      | some (.str s) => s
      | some v => pyStr v
      | none => "No details provided")
  | some _ => none

/-- The outcome of one exchanged response in the spec's taxonomy: the 200
path classifies the stream result (non-empty accumulator is a success,
empty is MalformedResponse, a server-reported error is ServerError); any
other status maps through `classifyFailure`. -/
def respOutcome (r : HttpResponse) : TurnOutcome :=
  if r.status = 200 then
    match iterLinesLoop r.lines "" with
    | .finished s => if s = "" then .failure .malformedResponse else .success s
    | .serverErr _ => .failure .serverError
    | .exceptionAbort => .failure .other
  else .failure (classifyFailure r.status)

/-- A chat message: `{"role": ..., "content": ...}`. -/
structure Message where
  role : String
  content : String
deriving DecidableEq

/-- The system message installed at session creation (source line 56). -/
def systemMsg : Message :=
  { role := "system", content := "你是一个懂中文的友善的IT专家" }

/-- `self.messages` right after `__init__`. -/
def initMessages : List Message := [systemMsg]

/-- Python truthiness of the value returned by `_send_message_to_ai`, as
tested by `if ai_response_content:` (source lines 209 and 249): `None`
and the empty string are falsy. -/
def truthy : Option String → Bool
  | none => false
  | some s => !(s == "")

/-- The rollback step of `interactive_chat` (source lines 214-216): pop
the last message when the transcript has more than one entry and ends in
a user message. -/
def popUser (msgs : List Message) : List Message :=
  if 1 < msgs.length ∧ (msgs.getLast?.map Message.role = some "user") then
    msgs.dropLast
  else msgs

/-- One submitted turn of `interactive_chat` (source lines 202-216):
speculatively append the user message, call `_send_message_to_ai` (its
response is the exogenous `resp`), then commit the assistant reply or
roll back.  Returns the new transcript and the raw send result. -/
def doTurn (msgs : List Message) (userText : String) (resp : HttpResponse) :
    List Message × Option String :=
  let msgs1 := msgs ++ [{ role := "user", content := userText }]
  match send_message_to_ai resp with
  | some s =>
    if s = "" then (popUser msgs1, some s)
    else (msgs1 ++ [{ role := "assistant", content := s }], some s)
  | none => (popUser msgs1, none)

/-- A sequence of submitted turns, each with its user text and the
response the server produced for it. -/
def runTurns (msgs : List Message) (turns : List (String × HttpResponse)) :
    List Message :=
  match turns with
  | [] => msgs
  | (u, r) :: rest => runTurns (doTurn msgs u r).1 rest

/-- What one iteration of the interactive loop does with an input line. -/
inductive StepRes where
  | quit (msgs : List Message)
  | modelSwitch (newModel : String) (msgs : List Message)
  | submitted (msgs : List Message) (sendRes : Option String)
deriving DecidableEq

/-- Python's `str.lower()` (ASCII case folding, as `Char.toLower`). -/
def pyLower (l : List Char) : List Char := l.map Char.toLower

/-- One iteration of the `interactive_chat` loop body (source lines
191-216): `exit`/`quit` terminate, `model <name>` switches the model
using the original-case input after position 6, anything else is
submitted as a turn. -/
def interactiveStep (msgs : List Message) (input : String) (resp : HttpResponse) :
    StepRes :=
  let low := pyLower input.toList
  if low = "exit".toList ∨ low = "quit".toList then .quit msgs
  else if ("model ".toList).isPrefixOf low then
    .modelSwitch (String.mk (pyStrip (input.toList.drop 6))) msgs
  else
    match doTurn msgs input resp with
    | (m2, r) => .submitted m2 r

/-- The fixed instruction prepended by the piped path (source line 240). -/
def instrContent : String := "请帮我简要总结以下内容"

/-- Observable effect of one call to `handle_piped_input`. -/
structure PipedRun where
  persistent : List Message
  sent : List Message
  result : Option String
  exitFailure : Bool
deriving DecidableEq

/-- `handle_piped_input` (source lines 229-255): build the transient
transcript `self.messages[:1] + [instruction, stripped content]`, send it,
and exit with status 1 when the result is falsy; `self.messages` is never
assigned. -/
def handle_piped_input (msgs : List Message) (pipedContent : String)
    (resp : HttpResponse) : PipedRun :=
  let temp := msgs.take 1 ++
    [{ role := "user", content := instrContent },
     { role := "user", content := String.mk (pyStrip pipedContent.toList) }]
  let r := send_message_to_ai resp
  { persistent := msgs, sent := temp, result := r, exitFailure := !(truthy r) }

/-- The three process modes chosen by `__main__` (source lines 269-280). -/
inductive MainAction where
  | interactive
  | pipedEmptyExit
  | piped (content : String)
deriving DecidableEq

/-- The `__main__` dispatch (source lines 269-280): a non-tty stdin with a
non-empty blob goes to `handle_piped_input` with the RAW blob; an empty
blob exits with an error; a tty enters the interactive loop. -/
def mainDispatch (isatty : Bool) (stdinData : String) : MainAction :=
  if !isatty then
    if stdinData ≠ "" then .piped stdinData else .pipedEmptyExit
  else .interactive

/-- The first content frame of the spec's decoder round-trip test. -/
def lineA : String := "data: \x7b\"choices\":[\x7b\"delta\":\x7b\"content\":\"A\"\x7d\x7d]\x7d"

/-- The second content frame of the spec's decoder round-trip test. -/
def lineB : String := "data: \x7b\"choices\":[\x7b\"delta\":\x7b\"content\":\"B\"\x7d\x7d]\x7d"

/-- The terminating sentinel frame. -/
def lineDone : String := "data: [DONE]"

/-- A server-reported error frame. -/
def lineErr : String := "data: \x7b\"error\":\x7b\"message\":\"boom\"\x7d\x7d"

/-- A frame whose object carries BOTH a non-empty `choices` array and a
top-level `error` field. -/
def lineBoth : String :=
  "data: \x7b\"choices\":[\x7b\"delta\":\x7b\"content\":\"X\"\x7d\x7d],\"error\":\x7b\"message\":\"boom\"\x7d\x7d"

/-- A 200 response streaming `A`, `B`, then `[DONE]`. -/
def respAB : HttpResponse := { status := 200, lines := [lineA, lineB, lineDone], body := "" }

/-- A bare 401 response. -/
def resp401 : HttpResponse := { status := 401, lines := [], body := "" }

lemma popUser_append_user (msgs : List Message) (u : String) (h : msgs ≠ []) :
    popUser (msgs ++ [{ role := "user", content := u }]) = msgs := by
  unfold popUser
  rw [if_pos, List.dropLast_concat]
  refine ⟨?_, ?_⟩
  · have hp : 0 < msgs.length := List.length_pos.mpr h
    simp only [List.length_append, List.length_cons, List.length_nil]
    omega
  · rw [List.getLast?_concat]
    rfl

lemma doTurn_fail (msgs : List Message) (u : String) (resp : HttpResponse)
    (h : msgs ≠ []) (hf : truthy (send_message_to_ai resp) = false) :
    (doTurn msgs u resp).1 = msgs := by
  unfold doTurn
  cases hsm : send_message_to_ai resp with
  | none => simpa using popUser_append_user msgs u h
  | some s =>
    rw [hsm] at hf
    have hs : s = "" := by
      by_contra hne
      simp [truthy, hne] at hf
    subst hs
    simpa using popUser_append_user msgs u h

lemma doTurn_success (msgs : List Message) (u : String) (resp : HttpResponse)
    (s : String) (hsm : send_message_to_ai resp = some s) (hs : s ≠ "") :
    (doTurn msgs u resp).1 =
      msgs ++ [{ role := "user", content := u }, { role := "assistant", content := s }] := by
  unfold doTurn
  rw [hsm]
  simp [hs]

/-- C1: a turn whose send result is falsy (any failure, including an
empty accumulated reply) leaves the transcript exactly as it was: the
speculative user message is removed and nothing else changes. -/
theorem c1_failure_rollback (msgs : List Message) (u : String) (resp : HttpResponse)
    (h : msgs ≠ []) (hf : truthy (send_message_to_ai resp) = false) :
    (doTurn msgs u resp).1 = msgs :=
  doTurn_fail msgs u resp h hf

/-- Witness for C1 at a concrete 401 response. -/
theorem c1_failure_rollback_witness :
    (doTurn [systemMsg] "hi" resp401).1 = [systemMsg] :=
  c1_failure_rollback [systemMsg] "hi" resp401 (by decide) (by decide)

lemma runTurns_length (msgs : List Message) (turns : List (String × HttpResponse))
    (h : ∀ p ∈ turns, truthy (send_message_to_ai p.2) = true) :
    (runTurns msgs turns).length = msgs.length + 2 * turns.length := by
  induction turns generalizing msgs with
  | nil => simp [runTurns]
  | cons p rest ih =>
    obtain ⟨u, r⟩ := p
    have hp : truthy (send_message_to_ai r) = true := h (u, r) (by simp)
    obtain ⟨s, hsm, hs⟩ : ∃ s, send_message_to_ai r = some s ∧ s ≠ "" := by
      cases hsm : send_message_to_ai r with
      | none => rw [hsm] at hp; simp [truthy] at hp
      | some s =>
        rw [hsm] at hp
        simp [truthy] at hp
        exact ⟨s, rfl, hp⟩
    have hstep := doTurn_success msgs u r s hsm hs
    calc (runTurns msgs ((u, r) :: rest)).length
        = (runTurns (doTurn msgs u r).1 rest).length := rfl
      _ = (doTurn msgs u r).1.length + 2 * rest.length :=
          ih (doTurn msgs u r).1 (fun q hq => h q (by simp [hq]))
      _ = msgs.length + 2 * ((u, r) :: rest).length := by
          rw [hstep]
          simp only [List.length_append, List.length_cons, List.length_nil]
          omega

/-- C4: after a sequence of turns that all succeed, the transcript holds
the system message plus one user/assistant pair per turn. -/
theorem c4_transcript_length (turns : List (String × HttpResponse))
    (h : ∀ p ∈ turns, truthy (send_message_to_ai p.2) = true) :
    (runTurns initMessages turns).length = 1 + 2 * turns.length := by
  have := runTurns_length initMessages turns h
  simpa [initMessages] using this

/-- Witness for C4 with one successful concrete turn. -/
theorem c4_transcript_length_witness :
    (runTurns initMessages [("hi", respAB)]).length = 1 + 2 * 1 :=
  c4_transcript_length [("hi", respAB)] (by decide)

/-- C3: the spec's decoder round-trip: the two content frames followed by
the `[DONE]` sentinel assemble to `Success("AB")`. -/
theorem c3_decoder_roundtrip :
    iterLinesLoop [lineA, lineB, lineDone] "" = .finished "AB" ∧
    respOutcome { status := 200, lines := [lineA, lineB, lineDone], body := "" } =
      .success "AB" := by
  decide

/-- C5: when the 200-status stream loop ends in the `finished` state
(either the line sequence was exhausted with no terminal event, or the
`[DONE]` sentinel broke the loop), a non-empty accumulator commits as a
success and an empty accumulator is a MalformedResponse failure that
rolls the transcript back. -/
theorem c5_stream_end_finalize (msgs : List Message) (u : String)
    (resp : HttpResponse) (a : String)
    (hm : msgs ≠ []) (hs : resp.status = 200)
    (hf : iterLinesLoop resp.lines "" = .finished a) :
    (a ≠ "" → respOutcome resp = .success a ∧
      doTurn msgs u resp =
        (msgs ++ [{ role := "user", content := u },
                  { role := "assistant", content := a }], some a)) ∧
    (a = "" → respOutcome resp = .failure .malformedResponse ∧
      doTurn msgs u resp = (msgs, some "")) := by
  have hsend : send_message_to_ai resp = some a := by
    unfold send_message_to_ai
    rw [if_pos hs, hf]
    rfl
  constructor
  · intro ha
    constructor
    · unfold respOutcome
      rw [if_pos hs, hf]
      simp [ha]
    · unfold doTurn
      rw [hsend]
      simp [ha]
  · intro ha
    subst ha
    constructor
    · unfold respOutcome
      rw [if_pos hs, hf]
      simp
    · unfold doTurn
      rw [hsend]
      simp [popUser_append_user msgs u hm]

/-- Witness for C5 at the concrete round-trip response. -/
theorem c5_stream_end_finalize_witness :
    respOutcome respAB = .success "AB" ∧
    doTurn [systemMsg] "hi" respAB =
      ([systemMsg, { role := "user", content := "hi" },
        { role := "assistant", content := "AB" }], some "AB") :=
  (c5_stream_end_finalize [systemMsg] "hi" respAB "AB"
    (by decide) rfl (by decide)).1 (by decide)

/-- C6: every non-200 status is a failure whose kind follows the status
dispatch `401 / 400 / 429 / {500,502,503,504} / other`; the classification
never reads the streamed body lines, and the 400 branch extracts a
`message` field from the JSON body while tolerating a parse failure. -/
theorem c6_non200_classification (r : HttpResponse) (h : r.status ≠ 200) :
    respOutcome r = .failure (classifyFailure r.status) ∧
    send_message_to_ai r = none ∧
    (∀ ls : List String, respOutcome { r with lines := ls } = respOutcome r) ∧
    classifyFailure 401 = .unauthorized ∧
    classifyFailure 400 = .badRequest ∧
    classifyFailure 429 = .rateLimited ∧
    (∀ c ∈ [500, 502, 503, 504], classifyFailure c = .serverError) ∧
    (∀ c : Nat, c ∉ [200, 401, 400, 429, 500, 502, 503, 504] →
      classifyFailure c = .other) ∧
    (∀ b : String, parseJson b.toList = none →
      badRequestNote b = some "Unable to parse error details.") ∧
    (∀ kvs s, objGet kvs "message" = some (Json.str s) →
      ∀ b : String, parseJson b.toList = some (.obj kvs) →
        badRequestNote b = some s) := by
  refine ⟨?_, ?_, ?_, by decide, by decide, by decide, by decide, ?_, ?_, ?_⟩
  · unfold respOutcome
    rw [if_neg h]
  · unfold send_message_to_ai
    rw [if_neg h]
  · intro ls
    unfold respOutcome
    simp only []
    rw [if_neg h, if_neg h]
  · intro c hc
    simp only [List.mem_cons, List.not_mem_nil, or_false, not_or] at hc
    obtain ⟨h200, h401, h400, h429, h500, h502, h503, h504⟩ := hc
    simp [classifyFailure, h401, h400, h429, h500, h502, h503, h504]
  · intro b hb
    unfold badRequestNote
    rw [hb]
  · intro kvs s hk b hb
    unfold badRequestNote
    rw [hb]
    show some (match objGet kvs "message" with
      | some (Json.str s) => s
      | some v => pyStr v
      | none => "No details provided") = some s
    rw [hk]

/-- Witness for C6 at a concrete 401 response. -/
theorem c6_non200_classification_witness :
    respOutcome resp401 = .failure .unauthorized ∧
    send_message_to_ai resp401 = none :=
  ⟨(c6_non200_classification resp401 (by decide)).1,
   (c6_non200_classification resp401 (by decide)).2.1⟩

/-- C7: the piped path never touches the persistent transcript, whatever
the outcome, and the transient transcript it sends is exactly the system
message, the fixed instruction, and the (stripped) piped content. -/
theorem c7_piped_isolation (content : String) (resp : HttpResponse) :
    (handle_piped_input initMessages content resp).persistent = initMessages ∧
    (handle_piped_input initMessages content resp).sent =
      [systemMsg,
       { role := "user", content := instrContent },
       { role := "user", content := String.mk (pyStrip content.toList) }] ∧
    (handle_piped_input initMessages content resp).sent.length = 3 :=
  ⟨rfl, rfl, rfl⟩

/-- Counterexample to C8: the interactive loop submits an empty input
line as a user message; when the server replies successfully, the
committed transcript contains a user message with empty content. -/
theorem c8_empty_user_cex :
    truthy (send_message_to_ai respAB) = true ∧
    (doTurn initMessages "" respAB).1 =
      [systemMsg, { role := "user", content := "" },
       { role := "assistant", content := "AB" }] ∧
    ({ role := "user", content := "" } : Message) ∈ (doTurn initMessages "" respAB).1 := by
  decide

lemma popUser_sub (msgs : List Message) : ∀ m ∈ popUser msgs, m ∈ msgs := by
  unfold popUser
  split
  · intro m hm
    exact List.dropLast_subset _ hm
  · intro m hm
    exact hm

lemma doTurn_assistant_inv (msgs : List Message) (u : String) (r : HttpResponse)
    (h : ∀ m ∈ msgs, m.role = "assistant" → m.content ≠ "") :
    ∀ m ∈ (doTurn msgs u r).1, m.role = "assistant" → m.content ≠ "" := by
  intro m hm hr
  unfold doTurn at hm
  cases hsm : send_message_to_ai r with
  | none =>
    rw [hsm] at hm
    simp only at hm
    rcases List.mem_append.mp (popUser_sub _ m hm) with h1 | h2
    · exact h m h1 hr
    · rw [List.mem_singleton.mp h2] at hr
      exact absurd (show ("user" : String) = "assistant" from hr) (by decide)
  | some s =>
    rw [hsm] at hm
    by_cases hs : s = ""
    · simp only [hs, if_pos rfl] at hm
      rcases List.mem_append.mp (popUser_sub _ m hm) with h1 | h2
      · exact h m h1 hr
      · rw [List.mem_singleton.mp h2] at hr
        exact absurd (show ("user" : String) = "assistant" from hr) (by decide)
    · simp only [if_neg hs] at hm
      rcases List.mem_append.mp hm with h1 | h2
      · rcases List.mem_append.mp h1 with h1a | h1b
        · exact h m h1a hr
        · rw [List.mem_singleton.mp h1b] at hr
          exact absurd (show ("user" : String) = "assistant" from hr) (by decide)
      · rw [List.mem_singleton.mp h2]
        exact hs

lemma runTurns_assistant_inv (turns : List (String × HttpResponse))
    (msgs : List Message)
    (h : ∀ m ∈ msgs, m.role = "assistant" → m.content ≠ "") :
    ∀ m ∈ runTurns msgs turns, m.role = "assistant" → m.content ≠ "" := by
  induction turns generalizing msgs with
  | nil => exact h
  | cons p rest ih =>
    obtain ⟨u, r⟩ := p
    exact ih (doTurn msgs u r).1 (doTurn_assistant_inv msgs u r h)

/-- Amended C8: after any sequence of turns, no ASSISTANT message in the
transcript has empty content (an assistant reply commits only when
non-empty); a USER message's content equals the raw submitted input and
may be empty, as `c8_empty_user_cex` shows. -/
theorem c8_assistant_nonempty (turns : List (String × HttpResponse)) :
    ∀ m ∈ runTurns initMessages turns, m.role = "assistant" → m.content ≠ "" :=
  runTurns_assistant_inv turns initMessages (by decide)

/-- Witness for the amended C8 at one concrete successful turn. -/
theorem c8_assistant_nonempty_witness :
    (Message.mk "assistant" "AB").content ≠ "" :=
  c8_assistant_nonempty [("hi", respAB)] (Message.mk "assistant" "AB")
    (by decide) (by decide)

lemma modelPref_ne_exit (low : List Char)
    (h : ("model ".toList).isPrefixOf low = true) :
    ¬(low = "exit".toList ∨ low = "quit".toList) := by
  rintro (he | he) <;> rw [he] at h <;> exact absurd h (by decide)

/-- C9: the interactive commands match case-insensitively: an input whose
lowercase form is `exit` or `quit` terminates the loop, and one whose
lowercase form starts with `model ` switches models, taking the new name
from the original-case input after position 6 and stripping whitespace;
neither touches the transcript or submits a turn. -/
theorem c9_commands (msgs : List Message) (input : String) (resp : HttpResponse) :
    ((pyLower input.toList = "exit".toList ∨ pyLower input.toList = "quit".toList) →
      interactiveStep msgs input resp = .quit msgs) ∧
    (("model ".toList).isPrefixOf (pyLower input.toList) = true →
      interactiveStep msgs input resp =
        .modelSwitch (String.mk (pyStrip (input.toList.drop 6))) msgs) := by
  constructor
  · intro h
    simp only [interactiveStep]
    rw [if_pos h]
  · intro h
    simp only [interactiveStep]
    rw [if_neg (modelPref_ne_exit _ h), if_pos h]

/-- Witness for C9: `QUIT` terminates; `MODEL  X ` switches to `X` with
the transcript untouched. -/
theorem c9_commands_witness :
    interactiveStep [] "QUIT" resp401 = .quit [] ∧
    interactiveStep [] "MODEL  X " resp401 = .modelSwitch "X" [] :=
  ⟨(c9_commands [] "QUIT" resp401).1 (by decide),
   (c9_commands [] "MODEL  X " resp401).2 (by decide)⟩

lemma allSpace_strip (l : List Char) (h : ∀ c ∈ l, pySpace c = true) :
    pyStrip l = [] := by
  unfold pyStrip
  rw [List.dropWhile_eq_nil_iff.mpr h]
  rfl

/-- C10: a whitespace-only piped blob is NOT treated as empty input (the
guard tests the raw blob), so the piped path runs; stripping then makes
the content user message the empty string. -/
theorem c10_whitespace_piped (stdinData : String) (resp : HttpResponse)
    (h1 : stdinData ≠ "") (h2 : ∀ c ∈ stdinData.toList, pySpace c = true) :
    mainDispatch false stdinData = .piped stdinData ∧
    (handle_piped_input initMessages stdinData resp).sent =
      [systemMsg, { role := "user", content := instrContent },
       { role := "user", content := "" }] := by
  constructor
  · simp [mainDispatch, h1]
  · have hr : (handle_piped_input initMessages stdinData resp).sent =
        [systemMsg, { role := "user", content := instrContent },
         { role := "user", content := String.mk (pyStrip stdinData.toList) }] := rfl
    rw [hr, allSpace_strip stdinData.toList h2]

/-- Witness for C10 at the concrete blob `" \n"`. -/
theorem c10_whitespace_piped_witness :
    mainDispatch false " \n" = .piped " \n" ∧
    (handle_piped_input initMessages " \n" resp401).sent =
      [systemMsg, { role := "user", content := instrContent },
       { role := "user", content := "" }] :=
  c10_whitespace_piped " \n" resp401 (by decide) (by decide)

/-- Counterexample to C2 as stated: a data frame whose JSON object
carries BOTH a non-empty `choices` array and a top-level `error` field is
handled by the `choices` branch (the `elif "error"` test is never
reached): the fragment is accumulated, the stream is not terminated, and
the outcome is a success rather than `Failure(ServerError)`. -/
theorem c2_error_event_cex :
    parseJson (pyStrip (lineBoth.toList.drop 6)) =
      some (Json.obj
        [("choices", Json.arr [Json.obj [("delta", Json.obj [("content", Json.str "X")])]]),
         ("error", Json.obj [("message", Json.str "boom")])]) ∧
    iterLinesLoop [lineBoth] "" = .finished "X" ∧
    respOutcome { status := 200, lines := [lineBoth], body := "" } = .success "X" :=
  ⟨rfl, by decide, by decide⟩

/-- Amended C2: a data-frame payload parsing to a JSON object on which
the `choices` guard evaluates to false and whose top-level `error` value
is an object with a string `message` makes the assembler stop with that
server-error message; the whole send returns `None` (falsy), so any
content accumulated before the event is discarded and never committed. -/
theorem c2_error_event_amended (l : String) (rest : List String) (acc : String)
    (b : String) (chunk ev : Json) (m : String)
    (hd : dataMark.isPrefixOf l.toList = true)
    (hp : parseJson (pyStrip (l.toList.drop 6)) = some chunk)
    (hg : choicesGuard chunk = some false)
    (hce : pyContains chunk "error" = some true)
    (hev : pyDictGet chunk "error" = some ev)
    (hm : pyDictGetOpt ev "message" = some (some (Json.str m))) :
    stepChunk chunk acc = .srvErr m ∧
    iterLinesLoop (l :: rest) acc = .serverErr m ∧
    send_message_to_ai { status := 200, lines := l :: rest, body := b } = none ∧
    truthy (send_message_to_ai { status := 200, lines := l :: rest, body := b }) = false := by
  have hF : l.toList.isEmpty = false := by
    cases hl : l.toList with
    | nil => rw [hl] at hd; exact absurd hd (by decide)
    | cons c t => rfl
  have hpd : parseJson doneChars = none := rfl
  have hdone : pyStrip (l.toList.drop 6) ≠ doneChars := by
    intro he
    rw [he, hpd] at hp
    exact Option.noConfusion hp
  have hstep : ∀ a : String, stepChunk chunk a = .srvErr m := by
    intro a
    simp [stepChunk, hg, errBranch, hce, hev, hm]
  have hd2 : dataMark <+: l.data := List.isPrefixOf_iff_prefix.mp hd
  have hF2 : ¬(l.data = []) := by
    intro h0
    rw [show l.toList = l.data from rfl, h0] at hF
    exact absurd hF (by decide)
  have hp2 : parseJson (pyStrip (List.drop 6 l.data)) = some chunk := hp
  have hdone2 : pyStrip (List.drop 6 l.data) ≠ doneChars := hdone
  have hloop : ∀ a : String, iterLinesLoop (l :: rest) a = .serverErr m := by
    intro a
    simp [iterLinesLoop, hF2, hd2, hdone2, hp2, hstep]
  have hsend : send_message_to_ai { status := 200, lines := l :: rest, body := b } = none := by
    simp [send_message_to_ai, sendReturn, hloop]
  exact ⟨hstep acc, hloop acc, hsend, by rw [hsend]; rfl⟩

/-- Witness for the amended C2: the spec's own error frame, with content
already accumulated. -/
theorem c2_error_event_amended_witness :
    iterLinesLoop [lineErr] "partial" = .serverErr "boom" ∧
    send_message_to_ai { status := 200, lines := [lineErr], body := "" } = none := by
  have h := c2_error_event_amended lineErr [] "partial" ""
    (Json.obj [("error", Json.obj [("message", Json.str "boom")])])
    (Json.obj [("message", Json.str "boom")]) "boom"
    (by decide) rfl rfl rfl rfl rfl
  exact ⟨h.2.1, h.2.2.1⟩
